import Mathlib

/-!
Shallow embedding of `src/app.py`, a single-file Streamlit front end that
collects two API keys and a video topic, builds a fixed three-agent CrewAI
pipeline, invokes its `kickoff` entry point once, and renders the result.

The external collaborators (Streamlit widgets, the CrewAI orchestrator, the
Tavily search service, the OpenAI model service) are opaque to the repository;
the submit handler is modelled as a pure function from the user inputs and the
one opaque kickoff outcome to a trace of user-visible displays, kickoff
invocations, and the process-environment state.
-/

namespace GenAI

/-- Python string truthiness, as used by `if not openai_api_key or not
tavily_api_key` in `app.py` line 40: a string is falsy exactly when it is
empty; any other string (including whitespace-only) is truthy. -/
def pythonTruthyString (s : String) : Bool := !(s == "")

/-- `TavilySearchTool(max_results=3)` (`app.py` line 51): the search-tool
client, recording its result cap. -/
structure TavilySearchTool where
  max_results : Nat
deriving DecidableEq

/-- `ChatOpenAI(model="gpt-4o")` (`app.py` line 53): the model client,
recording the pinned model identifier. -/
structure ChatOpenAI where
  model : String
deriving DecidableEq

/-- The single search-tool client the bootstrap constructs
(`web_search_tool = TavilySearchTool(max_results=3)`). -/
def web_search_tool : TavilySearchTool := { max_results := 3 }

/-- The single model client the bootstrap constructs
(`llm = ChatOpenAI(model="gpt-4o")`). -/
def llm : ChatOpenAI := { model := "gpt-4o" }

/-- A CrewAI `Agent(...)` as configured by `app.py`: role, goal template,
backstory, tool list, shared model client, verbosity, delegation flag.
The goal strings keep the literal `{topic}` placeholder of the source; the
topic is interpolated by the external framework at kickoff, not here. -/
structure AgentT where
  role : String
  goal : String
  backstory : String
  tools : List TavilySearchTool
  llm : ChatOpenAI
  verbose : Bool
  allow_delegation : Bool
deriving DecidableEq

/-- Agent 1, `trend_analyst` (`app.py` lines 59-69). -/
def trend_analyst : AgentT :=
  { role := "Analyste de Tendances Vidéo"
    goal := "Identifier les 3 angles et sous-sujets les plus populaires et les questions que se posent les gens sur le sujet : {topic}"
    backstory := "Vous êtes un expert en stratégie de contenu YouTube. Vous savez détecter ce qui captive le public et génère de l'engagement."
    tools := [web_search_tool]
    llm := llm
    verbose := false
    allow_delegation := false }

/-- Agent 2, `research_agent` (`app.py` lines 72-83). -/
def research_agent : AgentT :=
  { role := "Chercheur Web Senior"
    goal := "Pour chaque angle identifié, trouver 2-3 faits marquants, statistiques, ou exemples concrets. **Chaque fait doit être accompagné de son URL source**."
    backstory := "Vous êtes un 'fact-checker' méticuleux. Votre mission est de fournir des informations vérifiables et sourcées pour construire la crédibilité du script."
    tools := [web_search_tool]
    llm := llm
    verbose := false
    allow_delegation := false }

/-- Agent 3, `script_writer` (`app.py` lines 86-96); no `tools` argument is
passed, so its tool list is the CrewAI default, empty. -/
def script_writer : AgentT :=
  { role := "Rédacteur de Scripts Vidéo"
    goal := "Rédiger un plan de script vidéo (format Markdown) basé sur les tendances et les faits bruts fournis. Le script doit être structuré (Intro, Parties, Conclusion) et **intégrer les citations**."
    backstory := "Vous êtes un scénariste de talent, capable de transformer des informations brutes en une histoire engageante et rythmée."
    tools := []
    llm := llm
    verbose := false
    allow_delegation := false }

/-- A CrewAI `Task(...)`: description, expected output, assigned agent,
explicit `context` list of upstream tasks, and the `async_execution` flag.
A task constructed without a `context` argument is modelled with `[]`. -/
inductive TaskT : Type where
  | mk (description expected_output : String) (agent : AgentT)
       (context : List TaskT) (async_execution : Bool) : TaskT

def TaskT.description : TaskT → String
  | .mk d _ _ _ _ => d

def TaskT.expected_output : TaskT → String
  | .mk _ e _ _ _ => e

def TaskT.agent : TaskT → AgentT
  | .mk _ _ a _ _ => a

def TaskT.context : TaskT → List TaskT
  | .mk _ _ _ c _ => c

def TaskT.async_execution : TaskT → Bool
  | .mk _ _ _ _ f => f

/-- Task 1, `task_trends` (`app.py` lines 102-107): no context argument. -/
def task_trends : TaskT :=
  .mk "Analyser les tendances actuelles et les questions populaires pour le sujet : {topic}."
      "Une liste de 3 angles de script pertinents et les questions clés."
      trend_analyst [] false

/-- Task 2, `task_research` (`app.py` lines 110-116): `context=[task_trends]`. -/
def task_research : TaskT :=
  .mk "Collecter des faits, statistiques et sources pour les angles identifiés."
      "Un rapport structuré avec des faits et leurs URL sources pour chaque angle."
      research_agent [task_trends] false

/-- Task 3, `task_script` (`app.py` lines 119-127): `context=[task_research]`. -/
def task_script : TaskT :=
  .mk "Rédiger le plan détaillé du script vidéo en utilisant les angles et les faits sourcés."
      "Un script vidéo complet en Markdown, incluant une intro, plusieurs parties (une par angle) et une conclusion. Les citations sources doivent être incluses."
      script_writer [task_research] false

/-- The CrewAI `Process` selector; `app.py` uses `Process.sequential`. -/
inductive ProcessT : Type where
  | sequential
  | hierarchical
deriving DecidableEq

/-- A CrewAI `Crew(...)` as configured by `app.py` lines 132-137. -/
structure CrewT where
  agents : List AgentT
  tasks : List TaskT
  process : ProcessT
  verbose : Bool

/-- `video_crew` (`app.py` lines 132-137). -/
def video_crew : CrewT :=
  { agents := [trend_analyst, research_agent, script_writer]
    tasks := [task_trends, task_research, task_script]
    process := .sequential
    verbose := false }

/-- Modelled from the spec: the external CrewAI scheduler is not part of this
repository. Under a sequential process with every task synchronous, it runs
the task list in order, task `i` occupying the time slot `(i, i + 1)`
(start, finish). -/
def sequentialSchedule (ts : List TaskT) : List (Nat × Nat) :=
  (List.range ts.length).map (fun i => (i, i + 1))

/-- A schedule has no overlap when each task's finish slot is at or before the
next task's start slot. -/
def noOverlap (sched : List (Nat × Nat)) : Bool :=
  match sched with
  | [] => true
  | _ :: rest => (sched.zip rest).all (fun p => decide (p.1.2 ≤ p.2.1))

/-- The object returned by `video_crew.kickoff`: CrewAI's `CrewOutput`, a
pydantic model (hence always truthy in Python). Per the spec it sometimes
exposes a `raw` text field and sometimes does not, so `raw` is an `Option`;
`asText` is what `st.write(result)` would display for the object. -/
structure CrewOutput where
  raw : Option String
  asText : String
deriving DecidableEq

/-- The opaque outcome of the delegated `kickoff` call: either a returned
result object, or a raised exception carrying a message. -/
inductive KickoffOutcome : Type where
  | ok (res : CrewOutput)
  | err (msg : String)
deriving DecidableEq

/-- A user-visible display emitted by the handler (`st.error`, `st.info`,
`st.success`, `st.markdown`, `st.subheader`, `st.write`). Transient spinners
are not displays. -/
inductive Display : Type where
  | errorMsg (s : String)
  | info (s : String)
  | success (s : String)
  | markdown (s : String)
  | subheader (s : String)
  | write (s : String)
deriving DecidableEq

/-- A display is rendered pipeline output (as opposed to a status or error
banner) when it is a `markdown` or `write` display. -/
def Display.isOutput : Display → Bool
  | .markdown _ => true
  | .write _ => true
  | _ => false

/-- The error shown when a credential is missing (`app.py` line 41). -/
def missingKeysError : String :=
  "❌ Veuillez entrer vos clés API OpenAI et Tavily dans la barre latérale pour continuer."

/-- The three `st.info` progress banners (`app.py` lines 55, 98, 129). -/
def progressInfos : List Display :=
  [.info "🤖 Création des agents du Crew...",
   .info "📋 Définition des tâches...",
   .info "🚀 Assemblage du Crew et lancement de la mission..."]

/-- Prefix of the f-string in the top-level exception handler
(`app.py` line 155); the exception's own message is appended verbatim. -/
def kickoffErrorPrefix : String :=
  "❌ Une erreur est survenue pendant l'exécution du Crew : "

/-- The follow-up advice error (`app.py` line 156). -/
def kickoffErrorAdvice : String :=
  "Veuillez vérifier vos clés API, vos crédits OpenAI et que le modèle 'gpt-4o' est disponible."

/-- The state of the two credential environment variables in `os.environ`. -/
structure EnvState where
  OPENAI_API_KEY : Option String
  TAVILY_API_KEY : Option String
deriving DecidableEq

/-- The observable effect of one press of the submit button. -/
structure SubmitTrace where
  displays : List Display
  kickoffInvocations : List String
  clientsConstructed : Bool
  stopped : Bool
  env : EnvState
deriving DecidableEq

/-- Rendering of the kickoff result (`app.py` lines 149-152):
`if result and hasattr(result, 'raw'): st.markdown(result.raw) else:
st.write(result)`. A `CrewOutput` is a pydantic object and thus always
truthy, so the condition reduces to the presence of the `raw` field. -/
def renderResult (res : CrewOutput) : Display :=
  match res.raw with
  | some t => .markdown t
  | none => .write res.asText

/-- The submit handler, `app.py` lines 37-162, as a pure function. Inputs:
the two sidebar credentials, the topic text area, the opaque outcome of the
one delegated `kickoff` call, and the initial environment. The guard at
line 40 fires exactly when a credential string is Python-falsy (empty);
`st.stop()` then aborts before the environment is written and before any
client is constructed. Otherwise both environment variables are set, the
clients, agents, tasks and crew are constructed, `kickoff` is invoked once
with the topic, the result or the caught exception is displayed, and the
cleanup at lines 159-162 deletes both environment variables. -/
def runSubmit (openai_api_key tavily_api_key sujet_video : String)
    (kick : KickoffOutcome) (env0 : EnvState) : SubmitTrace :=
  if !pythonTruthyString openai_api_key || !pythonTruthyString tavily_api_key then
    { displays := [.errorMsg missingKeysError]
      kickoffInvocations := []
      clientsConstructed := false
      stopped := true
      env := env0 }
  else
    let envSet : EnvState :=
      { OPENAI_API_KEY := some openai_api_key, TAVILY_API_KEY := some tavily_api_key }
    let envCleaned : EnvState :=
      { envSet with OPENAI_API_KEY := none, TAVILY_API_KEY := none }
    match kick with
    | .ok res =>
      { displays := progressInfos ++
          [.success "✅ Mission terminée ! Voici votre script.",
           .markdown "---",
           .subheader "Script Vidéo Généré",
           renderResult res]
        kickoffInvocations := [sujet_video]
        clientsConstructed := true
        stopped := false
        env := envCleaned }
    | .err msg =>
      { displays := progressInfos ++
          [.errorMsg (kickoffErrorPrefix ++ msg),
           .errorMsg kickoffErrorAdvice]
        kickoffInvocations := [sujet_video]
        clientsConstructed := true
        stopped := false
        env := envCleaned }

/-! ## Theorems -/

/-- Claim C3: the constructed task graph has exactly 3 tasks forming a strict
linear chain: the research task's context list is exactly `[task_trends]`, the
script task's context list is exactly `[task_research]`, the first task has no
context, and the crew's task list is exactly these three in order — all fixed
at construction time. -/
theorem spec_C3 :
    video_crew.tasks = [task_trends, task_research, task_script]
    ∧ video_crew.tasks.length = 3
    ∧ task_trends.context = []
    ∧ task_research.context = [task_trends]
    ∧ task_script.context = [task_research] :=
  ⟨rfl, rfl, rfl, rfl, rfl⟩

/-- Claim C7: all three agents are constructed with `allow_delegation=False`,
and hence every agent of the crew refuses delegation. -/
theorem spec_C7 :
    trend_analyst.allow_delegation = false
    ∧ research_agent.allow_delegation = false
    ∧ script_writer.allow_delegation = false
    ∧ (video_crew.agents.all fun a => !a.allow_delegation) = true :=
  ⟨rfl, rfl, rfl, rfl⟩

/-- Claim C8: the crew's process is `sequential` and every one of the three
tasks has `async_execution=False`; under the spec-modelled sequential
scheduler the three tasks occupy non-overlapping slots in list order, so each
stage finishes before the next starts. -/
theorem spec_C8 :
    video_crew.process = ProcessT.sequential
    ∧ (video_crew.tasks.all fun t => !t.async_execution) = true
    ∧ sequentialSchedule video_crew.tasks = [(0, 1), (1, 2), (2, 3)]
    ∧ noOverlap (sequentialSchedule video_crew.tasks) = true :=
  ⟨rfl, by decide, by decide, by decide⟩

/-- Claim C9: the bootstrap constructs one search-tool client capped at 3
results per query and one model client pinned to "gpt-4o"; the search tool is
granted to the trend analyst and the researcher, not to the script writer, and
all three agents share the one model client. -/
theorem spec_C9 :
    web_search_tool.max_results = 3
    ∧ llm.model = "gpt-4o"
    ∧ trend_analyst.tools = [web_search_tool]
    ∧ research_agent.tools = [web_search_tool]
    ∧ script_writer.tools = []
    ∧ trend_analyst.llm = llm
    ∧ research_agent.llm = llm
    ∧ script_writer.llm = llm :=
  ⟨rfl, rfl, rfl, rfl, rfl, rfl, rfl, rfl⟩

/-- A string is whitespace-only when every character is whitespace; this
includes the empty string. Used to state the topic-validation claims. -/
def whitespaceOnly (s : String) : Bool := s.data.all Char.isWhitespace

/-- Helper: a non-empty string compares `== ""` to `false`. -/
theorem beq_empty_false {s : String} (h : s ≠ "") : (s == "") = false :=
  beq_eq_false_iff_ne.mpr h

/-- Claim C1: if either entered credential is empty, pressing submit shows the
configuration error, stops the run, constructs no tool or model client,
invokes the orchestrator zero times, and leaves the environment untouched. -/
theorem spec_C1 (o t s : String) (k : KickoffOutcome) (e : EnvState)
    (h : o = "" ∨ t = "") :
    (runSubmit o t s k e).displays = [.errorMsg missingKeysError]
    ∧ (runSubmit o t s k e).stopped = true
    ∧ (runSubmit o t s k e).clientsConstructed = false
    ∧ (runSubmit o t s k e).kickoffInvocations = []
    ∧ (runSubmit o t s k e).env = e := by
  rcases h with h | h <;> subst h <;>
    simp [runSubmit, pythonTruthyString]

/-- Witness for C1 at a concrete input: empty model-API key, present
search-API key. -/
theorem spec_C1_witness :
    (runSubmit "" "tvly-key" "Le télétravail" (.err "boom") ⟨none, none⟩).displays
        = [.errorMsg missingKeysError]
    ∧ (runSubmit "" "tvly-key" "Le télétravail" (.err "boom") ⟨none, none⟩).stopped = true
    ∧ (runSubmit "" "tvly-key" "Le télétravail" (.err "boom") ⟨none, none⟩).clientsConstructed = false
    ∧ (runSubmit "" "tvly-key" "Le télétravail" (.err "boom") ⟨none, none⟩).kickoffInvocations = []
    ∧ (runSubmit "" "tvly-key" "Le télétravail" (.err "boom") ⟨none, none⟩).env = ⟨none, none⟩ :=
  spec_C1 "" "tvly-key" "Le télétravail" (.err "boom") ⟨none, none⟩ (Or.inl rfl)

/-- Counterexample to claim C2 as stated: with both credentials non-empty and
the topic equal to the empty string, the submit handler still invokes the
orchestrator kickoff (once, with the empty topic) — the code performs no topic
validation. -/
theorem spec_C2_counterexample :
    (runSubmit "sk-key" "tvly-key" "" (.ok ⟨some "script", "script"⟩)
        ⟨none, none⟩).kickoffInvocations = [""] := by
  decide

/-- Claim C2 (amended): the submit handler does not validate the topic; for an
empty or whitespace-only topic, whenever both credentials are non-empty the
orchestrator kickoff is still invoked, exactly once, with that topic. Only an
empty credential prevents the remote call. -/
theorem spec_C2 (o t s : String) (k : KickoffOutcome) (e : EnvState)
    (h1 : o ≠ "") (h2 : t ≠ "") (_h3 : whitespaceOnly s = true) :
    (runSubmit o t s k e).kickoffInvocations = [s]
    ∧ (runSubmit o t s k e).clientsConstructed = true := by
  cases k <;>
    simp [runSubmit, pythonTruthyString, beq_empty_false h1, beq_empty_false h2]

/-- Witness for C2 (amended) at a concrete input: whitespace-only topic,
non-empty credentials. -/
theorem spec_C2_witness :
    (runSubmit "sk-key" "tvly-key" "  " (.ok ⟨some "script", "script"⟩)
        ⟨none, none⟩).kickoffInvocations = ["  "]
    ∧ (runSubmit "sk-key" "tvly-key" "  " (.ok ⟨some "script", "script"⟩)
        ⟨none, none⟩).clientsConstructed = true :=
  spec_C2 "sk-key" "tvly-key" "  " (.ok ⟨some "script", "script"⟩) ⟨none, none⟩
    (by decide) (by decide) (by decide)

/-- Claim C4: on a successful kickoff whose result carries raw text `T`, the
full display trace ends with exactly `markdown T` (no mutation, truncation or
reformatting); when the result has no raw field, the raw returned value is
written as a fallback instead of crashing. -/
theorem spec_C4 (o t s T : String) (res : CrewOutput) (e : EnvState)
    (h1 : o ≠ "") (h2 : t ≠ "") :
    (res.raw = some T →
      (runSubmit o t s (.ok res) e).displays
        = progressInfos ++
          [.success "✅ Mission terminée ! Voici votre script.",
           .markdown "---",
           .subheader "Script Vidéo Généré",
           .markdown T])
    ∧ (res.raw = none →
      (runSubmit o t s (.ok res) e).displays
        = progressInfos ++
          [.success "✅ Mission terminée ! Voici votre script.",
           .markdown "---",
           .subheader "Script Vidéo Généré",
           .write res.asText]) := by
  constructor <;> intro hraw <;>
    simp [runSubmit, pythonTruthyString, beq_empty_false h1, beq_empty_false h2,
      renderResult, hraw]

/-- Witness for C4 at a concrete input: a result carrying raw text. -/
theorem spec_C4_witness :
    ((⟨some "# Plan", "CrewOutput"⟩ : CrewOutput).raw = some "# Plan" →
      (runSubmit "sk-key" "tvly-key" "Sujet" (.ok ⟨some "# Plan", "CrewOutput"⟩)
          ⟨none, none⟩).displays
        = progressInfos ++
          [.success "✅ Mission terminée ! Voici votre script.",
           .markdown "---",
           .subheader "Script Vidéo Généré",
           .markdown "# Plan"])
    ∧ ((⟨some "# Plan", "CrewOutput"⟩ : CrewOutput).raw = none →
      (runSubmit "sk-key" "tvly-key" "Sujet" (.ok ⟨some "# Plan", "CrewOutput"⟩)
          ⟨none, none⟩).displays
        = progressInfos ++
          [.success "✅ Mission terminée ! Voici votre script.",
           .markdown "---",
           .subheader "Script Vidéo Généré",
           .write "CrewOutput"]) :=
  spec_C4 "sk-key" "tvly-key" "Sujet" "# Plan" ⟨some "# Plan", "CrewOutput"⟩
    ⟨none, none⟩ (by decide) (by decide)

/-- Claim C5: when the kickoff call raises, the exception is caught at the top
level: the display trace is exactly the progress banners followed by the error
banner carrying the underlying message verbatim and the advice banner, no
rendered output (`markdown`/`write`) is shown, and kickoff was invoked exactly
once — no automatic retry. -/
theorem spec_C5 (o t s m : String) (e : EnvState)
    (h1 : o ≠ "") (h2 : t ≠ "") :
    (runSubmit o t s (.err m) e).displays
      = progressInfos ++
        [.errorMsg (kickoffErrorPrefix ++ m), .errorMsg kickoffErrorAdvice]
    ∧ ((runSubmit o t s (.err m) e).displays.all fun d => ! d.isOutput) = true
    ∧ (runSubmit o t s (.err m) e).kickoffInvocations = [s] := by
  refine ⟨?_, ?_, ?_⟩ <;>
    simp [runSubmit, pythonTruthyString, beq_empty_false h1, beq_empty_false h2,
      progressInfos, Display.isOutput]

/-- Witness for C5 at a concrete input: a kickoff failure with message
"RateLimitError". -/
theorem spec_C5_witness :
    (runSubmit "sk-key" "tvly-key" "Sujet" (.err "RateLimitError") ⟨none, none⟩).displays
      = progressInfos ++
        [.errorMsg (kickoffErrorPrefix ++ "RateLimitError"),
         .errorMsg kickoffErrorAdvice]
    ∧ ((runSubmit "sk-key" "tvly-key" "Sujet" (.err "RateLimitError")
        ⟨none, none⟩).displays.all fun d => ! d.isOutput) = true
    ∧ (runSubmit "sk-key" "tvly-key" "Sujet" (.err "RateLimitError")
        ⟨none, none⟩).kickoffInvocations = ["Sujet"] :=
  spec_C5 "sk-key" "tvly-key" "Sujet" "RateLimitError" ⟨none, none⟩
    (by decide) (by decide)

/-- Claim C6: on every run that set the credential environment variables
(i.e. both credentials non-empty), whether the kickoff succeeded or raised a
caught error, both environment variables are deleted afterwards. -/
theorem spec_C6 (o t s : String) (k : KickoffOutcome) (e : EnvState)
    (h1 : o ≠ "") (h2 : t ≠ "") :
    (runSubmit o t s k e).env = ⟨none, none⟩ := by
  cases k <;>
    simp [runSubmit, pythonTruthyString, beq_empty_false h1, beq_empty_false h2]

/-- Witness for C6 at a concrete input, on the error path. -/
theorem spec_C6_witness :
    (runSubmit "sk-key" "tvly-key" "Sujet" (.err "boom")
        ⟨some "old", none⟩).env = ⟨none, none⟩ :=
  spec_C6 "sk-key" "tvly-key" "Sujet" (.err "boom") ⟨some "old", none⟩
    (by decide) (by decide)

/-- Claim C10: the credential guard tests only Python truthiness: the run is
stopped exactly when one of the credential strings is empty, clients are
constructed exactly when both are non-empty, and in particular whitespace-only
credentials (" ") pass validation and the kickoff call proceeds. -/
theorem spec_C10 (o t s : String) (k : KickoffOutcome) (e : EnvState) :
    (runSubmit o t s k e).stopped = ((o == "") || (t == ""))
    ∧ (runSubmit o t s k e).clientsConstructed = (!(o == "") && !(t == ""))
    ∧ (runSubmit " " " " s k e).clientsConstructed = true
    ∧ (runSubmit " " " " s k e).kickoffInvocations = [s] := by
  refine ⟨?_, ?_, ?_, ?_⟩
  · cases ho : (o == "") <;> cases ht : (t == "") <;> cases k <;>
      simp [runSubmit, pythonTruthyString, ho, ht]
  · cases ho : (o == "") <;> cases ht : (t == "") <;> cases k <;>
      simp [runSubmit, pythonTruthyString, ho, ht]
  · cases k <;> simp [runSubmit, pythonTruthyString]
  · cases k <;> simp [runSubmit, pythonTruthyString]

end GenAI
